import Mathlib

/-!
Shallow embedding of `storage/volume.go` (package `storage`): the MSFT_Volume
shim over the OLE/WMI automation API.

The Go code is a marshaling layer around effectful OLE calls
(`oleutil.CallMethod`, `oleutil.GetProperty`).  We embed it by making the
outcome of every native call an explicit input (an oracle): each Go function
becomes a pure Lean function from its arguments plus the native outcomes to
its results, and the arguments the Go code marshals for a native call are
exposed as an explicit record so theorems can speak about what is passed.
Errors are modelled as their message strings (Go `error` values here are
always `fmt.Errorf` strings; `%w` wrapping concatenates the context prefix).
-/

namespace Storage

/-- The dynamic payload of an OLE VARIANT as seen through the Go type
assertion `res.Value().(int32)`: either an `int32` (held as an `Int`, the
source range being irrelevant to the checked properties) or some other
dynamic type. -/
inductive Value where
  | i32 (v : Int)
  | other
deriving DecidableEq, Repr

/-- The Go type assertion `res.Value().(int32)`, returning the pair
`(val, ok)`: the zero value `0` with `ok = false` when the payload is not an
`int32`. -/
def int32Assert : Value → Int × Bool
  | .i32 v => (v, true)
  | .other => (0, false)

/-- Outcome of one `oleutil.CallMethod` invocation: the call itself failed
with an error (message), or it returned a result VARIANT whose payload is
given. -/
inductive CallOutcome where
  | callErr (e : String)
  | ok (value : Value)
deriving DecidableEq, Repr

/-- Modelled from the spec: `ExtendedStatus` is "an opaque result/diagnostic
record returned by mutating operations (present but unpopulated in this
implementation)".  Its Go definition is outside this file; per the spec it
carries no data. -/
structure ExtendedStatus where
deriving DecidableEq, Repr

/-- `Volume` from volume.go: a snapshot of one MSFT_Volume object plus the
native handle.  The handle `*ole.IDispatch` is modelled as `Option Nat`
(`none` is Go `nil`; a `Nat` identifies a live native dispatch object).
Go zero values are the field defaults. -/
structure Volume where
  DriveLetter : String := ""
  Path : String := ""
  HealthStatus : Int := 0
  FileSystem : String := ""
  FileSystemLabel : String := ""
  FileSystemType : Int := 0
  Size : Nat := 0
  SizeRemaining : Nat := 0
  DriveType : Int := 0
  DedupMode : Int := 0
  handle : Option Nat := none
deriving DecidableEq, Repr

/-- `Volume.Close`:
```go
func (v *Volume) Close() {
    if v.handle != nil {
        v.handle.Release()
    }
}
```
The only effect is the conditional `Release` on the native handle, so the
embedding returns the list of `Release` calls performed (by handle id).
`Close` does not modify the `Volume`; in particular it does not set
`handle` to `nil`, so the state seen by a subsequent call is unchanged. -/
def Volume.close (v : Volume) : List Nat :=
  match v.handle with
  | some h => [h]
  | none => []

/-- Two successive `Close()` calls on the same `Volume`: since `Close`
leaves the struct unchanged, the `Release` calls performed are those of
`Volume.close` twice in sequence. -/
def Volume.doubleCloseReleases (v : Volume) : List Nat :=
  v.close ++ v.close

/-- `Volume.Flush`: the native call outcome is the oracle input; the result
is the returned error message, if any.
```go
res, err := oleutil.CallMethod(v.handle, "Flush")
if err != nil {
    return fmt.Errorf("Flush: %w", err)
} else if val, ok := res.Value().(int32); val != 0 || !ok {
    return fmt.Errorf("error code returned during flush: %d", val)
}
return nil
``` -/
def Volume.flush (_v : Volume) (callRes : CallOutcome) : Option String :=
  match callRes with
  | .callErr e => some ("Flush: " ++ e)
  | .ok value =>
    let (val, ok) := int32Assert value
    if val != 0 || !ok then
      some ("error code returned during flush: " ++ toString val)
    else
      none

/-- `Volume.Optimize`: same error discipline as `Flush`; the five booleans
are forwarded to the native call unchanged and do not affect control flow. -/
def Volume.optimize (_v : Volume)
    (_reTrim _analyze _defrag _slabConslidate _tierOptimize : Bool)
    (callRes : CallOutcome) : ExtendedStatus × Option String :=
  match callRes with
  | .callErr e => ({}, some ("Optimize: " ++ e))
  | .ok value =>
    let (val, ok) := int32Assert value
    if val != 0 || !ok then
      ({}, some ("error code returned during optimization: " ++ toString val))
    else
      ({}, none)

/-- `Volume.SetFileSystemLabel`: same error discipline as `Flush`. -/
def Volume.setFileSystemLabel (_v : Volume) (_fileSystemLabel : String)
    (callRes : CallOutcome) : ExtendedStatus × Option String :=
  match callRes with
  | .callErr e => ({}, some ("SetFileSystemLabel: " ++ e))
  | .ok value =>
    let (val, ok) := int32Assert value
    if val != 0 || !ok then
      ({}, some ("error code returned during setting file system label: " ++ toString val))
    else
      ({}, none)

/-- A value passed as an `interface\x7b\x7d` argument to the native `Format`
call: Go `nil` becomes VT_NULL at the OLE boundary; otherwise the typed
value is passed. -/
inductive Arg where
  | null
  | int (v : Int)
  | bool (b : Bool)
deriving DecidableEq, Repr

/-- `strings.EqualFold` as the source applies it.  Go folds by Unicode
simple case folding; the only call site compares against the literal
`"ReFS"`, and the simple-folding orbits of the Latin letters are their
upper/lower-case pairs except that U+017F (long s) also folds with `s`/`S`
and U+212A (Kelvin sign) also folds with `k`/`K`.  `foldChar` maps every
character to the canonical (lower-case ASCII) element of its orbit when that
orbit meets ASCII, and is the identity (after ASCII lowering) elsewhere;
on comparisons against `"ReFS"` this agrees exactly with Go. -/
def foldChar (c : Char) : Char :=
  if c = Char.ofNat 0x17F then 's'
  else if c = Char.ofNat 0x212A then 'k'
  else c.toLower

/-- String-level `strings.EqualFold` (see `foldChar`). -/
def equalFold (s t : String) : Bool :=
  s.data.map foldChar == t.data.map foldChar

/-- The arguments the Go code marshals for the native `Format` call, in the
order they are passed to `oleutil.CallMethod(v.handle, "Format", ...)`. -/
structure FormatCallArgs where
  fs : String
  fsLabel : String
  ialloc : Arg
  full : Bool
  force : Bool
  icompress : Arg
  ishortn : Arg
  iintegrity : Arg
  ilfrs : Arg
  disableHeatGathering : Bool
deriving DecidableEq, Repr

/-- The argument-marshaling part of `Volume.Format` (volume.go lines 81-103):
```go
var ialloc interface{}
if allocationUnitSize != 0 {
    ialloc = allocationUnitSize
} else {
    ialloc = nil
}
var icompress interface{}
var iintegrity interface{}
var ilfrs interface{}
var ishortn interface{}
if strings.EqualFold("ReFS", fs) {
    iintegrity = setIntegrityStreams
    ilfrs = useLargeFRS
    ishortn = nil
    icompress = nil
} else {
    iintegrity = nil
    ilfrs = nil
    ishortn = shortFileNameSupport
    icompress = compress
}
``` -/
def formatArgs (fs fsLabel : String) (allocationUnitSize : Int)
    (full force compress shortFileNameSupport setIntegrityStreams
     useLargeFRS disableHeatGathering : Bool) : FormatCallArgs :=
  let ialloc := if allocationUnitSize != 0 then Arg.int allocationUnitSize else Arg.null
  let (iintegrity, ilfrs, ishortn, icompress) :=
    if equalFold "ReFS" fs then
      (Arg.bool setIntegrityStreams, Arg.bool useLargeFRS, Arg.null, Arg.null)
    else
      (Arg.null, Arg.null, Arg.bool shortFileNameSupport, Arg.bool compress)
  { fs := fs, fsLabel := fsLabel, ialloc := ialloc, full := full, force := force,
    icompress := icompress, ishortn := ishortn, iintegrity := iintegrity,
    ilfrs := ilfrs, disableHeatGathering := disableHeatGathering }

/-- Outcome of the native `Format` call: the call failed, or it returned a
result VARIANT (its payload) together with the `formattedVolume` output
VARIANT, whose `ToIDispatch()` yields the handle bound to the freshly
formatted volume object (`none` for a nil dispatch). -/
inductive FormatNative where
  | callErr (e : String)
  | ok (value : Value) (formattedVolume : Option Nat)
deriving DecidableEq, Repr

/-- `Volume.Format` result handling (volume.go lines 104-115): on a call
error or a non-zero status code the zero-valued `vol` and `stat` are
returned with an error; on success `vol.handle` is set from the
`formattedVolume` output VARIANT and the new `Volume` is returned.  The
receiver is not modified. -/
def Volume.format (_v : Volume) (fs fsLabel : String) (allocationUnitSize : Int)
    (full force compress shortFileNameSupport setIntegrityStreams
     useLargeFRS disableHeatGathering : Bool)
    (callRes : FormatNative) : Volume × ExtendedStatus × Option String :=
  let vol : Volume := {}
  let stat : ExtendedStatus := {}
  -- the marshaled arguments are fixed by the inputs; recorded for reference
  let _args := formatArgs fs fsLabel allocationUnitSize full force compress
    shortFileNameSupport setIntegrityStreams useLargeFRS disableHeatGathering
  match callRes with
  | .callErr e => (vol, stat, some ("Format: " ++ e))
  | .ok value formatted =>
    let (val, ok) := int32Assert value
    if val != 0 || !ok then
      (vol, stat, some ("error code returned during formatting: " ++ toString val))
    else
      ({ vol with handle := formatted }, stat, none)

/-- One OLE VARIANT returned by `oleutil.GetProperty`, restricted to the
three views the Go code takes of it: the raw `.Val` field (used for
`DriveLetter` and `Count`), the `.ToString()` rendering (used for the
string properties), and the dynamic `.Value()` payload (fed to
`assignVariant` for the numeric properties). -/
structure Variant where
  val : Int
  str : String
  value : Value
deriving DecidableEq, Repr

/-- Oracle for the native interactions of one `Query()` call:
`getProp n` is the outcome of `oleutil.GetProperty(v.handle, n)`, and
`assign n x` is the outcome of `assignVariant(x, dest)` for the numeric
property `n`.  `assignVariant` is code of this repository outside this
file; modelled from the spec: it is the per-field decoder of the
"property-name-to-field dispatch loop", which either decodes the dynamic
value into the destination field (here: the decoded integer) or fails,
failures being "logged and swallowed rather than failing the whole
query". -/
structure QueryEnv where
  getProp : String → Except String Variant
  assign : String → Value → Except String Int

/-- Go `string(rune(p.Val))`: the one-character string for the code point
held in `.Val` (the `DriveLetter` property is a Char16).  Out-of-range
values are immaterial to the checked properties. -/
def charOfVal (n : Int) : String :=
  String.singleton (Char.ofNat n.toNat)

/-- The numeric properties read by the dispatch loop of `Query()`, in
source order, paired with their destination fields via `setNumField`. -/
def nonStringProps : List String :=
  ["HealthStatus", "FileSystemType", "Size", "SizeRemaining", "DriveType", "DedupMode"]

/-- Writes a decoded numeric property into its destination field, mirroring
the `[]interface\x7b\x7d\x7bname, &v.Field\x7d` pairs of the dispatch loop.
The two `uint64` fields are held as `Nat`. -/
def setNumField (v : Volume) (name : String) (x : Int) : Volume :=
  if name = "HealthStatus" then { v with HealthStatus := x }
  else if name = "FileSystemType" then { v with FileSystemType := x }
  else if name = "Size" then { v with Size := x.toNat }
  else if name = "SizeRemaining" then { v with SizeRemaining := x.toNat }
  else if name = "DriveType" then { v with DriveType := x }
  else if name = "DedupMode" then { v with DedupMode := x }
  else v

/-- The numeric-property dispatch loop of `Query()`:
```go
for _, p := range [][]interface{}{ ... } {
    prop, err := oleutil.GetProperty(v.handle, p[0].(string))
    if err != nil {
        return fmt.Errorf("oleutil.GetProperty(%s): %w", p[0].(string), err)
    }
    if err := assignVariant(prop.Value(), p[1]); err != nil {
        logger.Warningf("assignVariant(%s): %v", p[0].(string), err)
    }
}
```
Returns the volume as mutated so far, the accumulated warning log, and the
error, if any. -/
def queryLoop (env : QueryEnv) : Volume → List String → List String →
    Volume × List String × Option String
  | v, logs, [] => (v, logs, none)
  | v, logs, name :: rest =>
    match env.getProp name with
    | .error e => (v, logs, some ("oleutil.GetProperty(" ++ name ++ "): " ++ e))
    | .ok p =>
      match env.assign name p.value with
      | .error e =>
        queryLoop env v (logs ++ ["assignVariant(" ++ name ++ "): " ++ e]) rest
      | .ok x => queryLoop env (setNumField v name x) logs rest

/-- `Volume.Query`: returns the volume as mutated by the call (Go mutates
through the pointer receiver, so fields assigned before a failure keep
their new values), the warning log, and the returned error, if any. -/
def Volume.query (v : Volume) (env : QueryEnv) :
    Volume × List String × Option String :=
  match v.handle with
  | none => (v, [], some "invalid handle")
  | some _ =>
    match env.getProp "DriveLetter" with
    | .error e => (v, [], some ("oleutil.GetProperty(DriveLetter): " ++ e))
    | .ok p =>
    let v := { v with DriveLetter := charOfVal p.val }
    match env.getProp "Path" with
    | .error e => (v, [], some ("oleutil.GetProperty(Path): " ++ e))
    | .ok p =>
    let v := { v with Path := p.str }
    match env.getProp "FileSystem" with
    | .error e => (v, [], some ("oleutil.GetProperty(FileSystem): " ++ e))
    | .ok p =>
    let v := { v with FileSystem := p.str }
    match env.getProp "FileSystemLabel" with
    | .error e => (v, [], some ("oleutil.GetProperty(FileSystemLabel): " ++ e))
    | .ok p =>
    let v := { v with FileSystemLabel := p.str }
    queryLoop env v [] nonStringProps

/-- All properties `Query()` accesses, in access order. -/
def queryProps : List String :=
  ["DriveLetter", "Path", "FileSystem", "FileSystemLabel"] ++ nonStringProps

/-- The first property (in access order) whose `GetProperty` call fails,
with its error, if any. -/
def firstGetPropErr (env : QueryEnv) : List String → Option (String × String)
  | [] => none
  | n :: rest =>
    match env.getProp n with
    | .error e => some (n, e)
    | .ok _ => firstGetPropErr env rest

/-- `VolumeSet` from volume.go. -/
structure VolumeSet where
  Volumes : List Volume
deriving DecidableEq, Repr

/-- `VolumeSet.Close` performs `Close()` on every member in order; the
embedding returns the concatenated `Release` calls. -/
def VolumeSet.close (s : VolumeSet) : List Nat :=
  s.Volumes.flatMap Volume.close

/-- Oracle for the native interactions of one `GetVolumes` call:
`execQuery q` is the outcome of `ExecQuery` on the query string `q`;
`countProp` is the outcome of reading the `Count` property of the result
(its `.Val`, converted by Go `int(...)`); `itemIndex i` is the outcome of
`ItemIndex(i)`, its dispatch handle on success (`none` for nil); and
`itemEnv i` is the property environment of item `i` for the nested
`Query()` call. -/
structure Wmi where
  execQuery : String → Except String Unit
  countProp : Except String Int
  itemIndex : Nat → Except String (Option Nat)
  itemEnv : Nat → QueryEnv

/-- `Service` from the repository: the WMI service connection; its only use
in volume.go is as the dispatch the `ExecQuery` call is bound to, so the
embedding carries the oracle for that connection. -/
structure Service where
  wmiSvc : Wmi

/-- The query string `GetVolumes` executes (volume.go lines 230-233):
```go
query := "SELECT * FROM MSFT_Volume"
if filter != "" {
    query = fmt.Sprintf("%s %s", query, filter)
}
``` -/
def volumeQuery (filter : String) : String :=
  let query := "SELECT * FROM MSFT_Volume"
  if filter != "" then query ++ " " ++ filter else query

/-- Processing of one enumeration item `i` (volume.go lines 248-259):
fetch the item and its dispatch, build a `Volume` around the handle, and
run `Query()` on it; the failure of either step is the error `GetVolumes`
returns for this item. -/
def itemOutcome (w : Wmi) (i : Nat) : Except String Volume :=
  match w.itemIndex i with
  | .error e => .error ("oleutil.CallMethod(ItemIndex, " ++ toString i ++ "): " ++ e)
  | .ok hnd =>
    match Volume.query { handle := hnd } (w.itemEnv i) with
    | (_, _, some e) => .error e
    | (v, _, none) => .ok v

/-- The enumeration loop of `GetVolumes`: `acc` is `vset.Volumes` so far,
`i` the current index, and the third argument the remaining iteration
count.  On a per-item failure the accumulator built so far is returned
together with the error, exactly as the Go `return vset, err`. -/
def getVolumesLoop (w : Wmi) : List Volume → Nat → Nat → List Volume × Option String
  | acc, _, 0 => (acc, none)
  | acc, i, r + 1 =>
    match itemOutcome w i with
    | .error e => (acc, some e)
    | .ok v => getVolumesLoop w (acc ++ [v]) (i + 1) r

/-- `Service.GetVolumes`. -/
def Service.getVolumes (svc : Service) (filter : String) : VolumeSet × Option String :=
  let w := svc.wmiSvc
  let query := volumeQuery filter
  match w.execQuery query with
  | .error e => (⟨[]⟩, some ("ExecQuery(" ++ query ++ "): " ++ e))
  | .ok _ =>
    match w.countProp with
    | .error e => (⟨[]⟩, some ("oleutil.GetProperty(Count): " ++ e))
    | .ok cnt =>
      let res := getVolumesLoop w [] 0 cnt.toNat
      (⟨res.1⟩, res.2)

/-- The volumes successfully materialized from `k` consecutive items
starting at index `i` (used to name the prefix appended before a failure). -/
def okVolumes (w : Wmi) : Nat → Nat → List Volume
  | _, 0 => []
  | i, k + 1 =>
    match itemOutcome w i with
    | .ok v => v :: okVolumes w (i + 1) k
    | .error _ => []

/-! ## Lemmas on the dispatch loop of Query() -/

/-- The dispatch loop only appends to the warning log. -/
theorem queryLoop_logs_mono (env : QueryEnv) (names : List String) :
    ∀ v logs x, x ∈ logs → x ∈ (queryLoop env v logs names).2.1 := by
  induction names with
  | nil =>
    intro v logs x hx
    simpa [queryLoop] using hx
  | cons n rest ih =>
    intro v logs x hx
    simp only [queryLoop]
    split
    · simpa using hx
    · split
      · exact ih _ _ _ (by simp [hx])
      · exact ih _ _ _ hx

/-- When every `GetProperty` in the list succeeds, the dispatch loop never
returns an error, whatever `assignVariant` does. -/
theorem queryLoop_ok (env : QueryEnv) (names : List String)
    (hall : ∀ n ∈ names, ∃ p, env.getProp n = .ok p) :
    ∀ v logs, (queryLoop env v logs names).2.2 = none := by
  induction names with
  | nil => intro v logs; simp [queryLoop]
  | cons n rest ih =>
    intro v logs
    obtain ⟨p, hp⟩ := hall n (by simp)
    simp only [queryLoop, hp]
    have hall' : ∀ m ∈ rest, ∃ q, env.getProp m = .ok q :=
      fun m hm => hall m (by simp [hm])
    cases ha : env.assign n p.value with
    | error e => exact ih hall' _ _
    | ok y => exact ih hall' _ _

/-- When every `GetProperty` in the list succeeds, each `assignVariant`
failure leaves its warning in the log of the dispatch loop. -/
theorem queryLoop_warns (env : QueryEnv) (names : List String)
    (hall : ∀ n ∈ names, ∃ p, env.getProp n = .ok p) :
    ∀ v logs n, n ∈ names → ∀ p e, env.getProp n = .ok p →
      env.assign n p.value = .error e →
      ("assignVariant(" ++ n ++ "): " ++ e) ∈ (queryLoop env v logs names).2.1 := by
  induction names with
  | nil => intro v logs n hn; simp at hn
  | cons m rest ih =>
    intro v logs n hn p e hp ha
    obtain ⟨q, hq⟩ := hall m (by simp)
    have hall' : ∀ x ∈ rest, ∃ y, env.getProp x = .ok y :=
      fun x hx => hall x (by simp [hx])
    simp only [queryLoop, hq]
    rcases List.mem_cons.1 hn with hnm | hnr
    · subst hnm
      rw [hp] at hq
      cases Except.ok.inj hq
      simp only [ha]
      exact queryLoop_logs_mono env rest _ _ _ (by simp)
    · cases hb : env.assign m q.value with
      | error e0 => exact ih hall' _ _ n hnr p e hp ha
      | ok y => exact ih hall' _ _ n hnr p e hp ha

/-- The dispatch loop returns the wrapped error of the first property whose
`GetProperty` call fails. -/
theorem queryLoop_first_err (env : QueryEnv) :
    ∀ names n e, firstGetPropErr env names = some (n, e) →
      ∀ v logs, (queryLoop env v logs names).2.2 =
        some ("oleutil.GetProperty(" ++ n ++ "): " ++ e) := by
  intro names
  induction names with
  | nil => intro n e hf; simp [firstGetPropErr] at hf
  | cons m rest ih =>
    intro n e hf v logs
    simp only [firstGetPropErr] at hf
    cases hg : env.getProp m with
    | error e0 =>
      rw [hg] at hf
      simp only [Option.some.injEq, Prod.mk.injEq] at hf
      obtain ⟨hn, he⟩ := hf
      subst hn; subst he
      simp [queryLoop, hg]
    | ok p =>
      rw [hg] at hf
      simp only [queryLoop, hg]
      cases ha : env.assign m p.value with
      | error e0 => exact ih n e hf _ _
      | ok y => exact ih n e hf _ _

/-! ## Concrete environments used by witnesses -/

/-- A property environment with every interaction failing; used only to
instantiate oracles at concrete inputs. -/
def envFail : QueryEnv :=
  ⟨fun _ => .error "e", fun _ _ => .error "e"⟩

/-- A property environment with every interaction succeeding. -/
def envAllOk : QueryEnv :=
  ⟨fun _ => .ok ⟨68, "d", .i32 3⟩, fun _ _ => .ok 3⟩

/-! ## Claims -/

/-- Claim C1, counterexample.  The claim reads `Close()` twice in
succession as a no-op on the second call that "must not release the native
handle a second time".  On the code this is false: `Close` never clears
`handle`, so on a `Volume` holding handle `1` the two successive calls
perform two `Release` calls (`[1, 1]`), not the single `Release` of one
`Close` call. -/
theorem C1_double_close_counterexample :
    Volume.doubleCloseReleases { handle := some 1 } = [1, 1] ∧
    ¬ Volume.doubleCloseReleases { handle := some 1 } =
        Volume.close { handle := some 1 } := by
  decide

/-- Claim C1, amended: `Close()` never panics or errors and performs no
release on a nil handle, but it does not clear the handle, so each of two
successive `Close()` calls on a `Volume` with a non-nil handle releases
that handle once (two releases in total). -/
theorem C1_double_close_amended (v : Volume) :
    (∀ h, v.handle = some h → Volume.doubleCloseReleases v = [h, h]) ∧
    (v.handle = none → Volume.doubleCloseReleases v = []) := by
  constructor
  · intro h hh
    simp [Volume.doubleCloseReleases, Volume.close, hh]
  · intro hh
    simp [Volume.doubleCloseReleases, Volume.close, hh]

/-- Witness for C1 amended at a concrete volume holding handle 2. -/
theorem C1_double_close_amended_witness :
    Volume.doubleCloseReleases { handle := some 2 } = [2, 2] :=
  (C1_double_close_amended { handle := some 2 }).1 2 rfl

/-- Claim C2: in the native `Format` call, when fs equals "ReFS" under the
case-insensitive comparison the compress and short-filename-support
arguments are null and the integrity-streams and large-FRS arguments carry
the caller values; for any other fs the caller compress and
short-filename-support values are passed and integrity-streams and
large-FRS are null. -/
theorem C2_format_refs_option_groups (fs fsLabel : String)
    (allocationUnitSize : Int)
    (full force compress shortFileNameSupport setIntegrityStreams
     useLargeFRS disableHeatGathering : Bool) :
    (let a := formatArgs fs fsLabel allocationUnitSize full force compress
        shortFileNameSupport setIntegrityStreams useLargeFRS disableHeatGathering
     (a.icompress, a.ishortn, a.iintegrity, a.ilfrs)) =
      if equalFold "ReFS" fs then
        (Arg.null, Arg.null, Arg.bool setIntegrityStreams, Arg.bool useLargeFRS)
      else
        (Arg.bool compress, Arg.bool shortFileNameSupport, Arg.null, Arg.null) := by
  by_cases h : equalFold "ReFS" fs <;> simp [formatArgs, h]

/-- Claim C3: the query string `GetVolumes` executes is the fixed base for
the empty filter and the base, one space, and the filter otherwise. -/
theorem C3_getVolumes_query_string (filter : String) :
    volumeQuery filter =
      if filter = "" then "SELECT * FROM MSFT_Volume"
      else "SELECT * FROM MSFT_Volume " ++ filter := by
  unfold volumeQuery
  by_cases h : filter = ""
  · simp [h]
  · simp only [h, if_false, bne_iff_ne, ne_eq, not_false_eq_true, if_true]
    have hb : "SELECT * FROM MSFT_Volume" ++ " " = "SELECT * FROM MSFT_Volume " := rfl
    rw [hb]

/-- Claim C4: for each mutating operation (`Flush`, `Format`, `Optimize`,
`SetFileSystemLabel`): a failing native call yields the native error
wrapped with the operation context; a successful native call returning a
non-zero `int32` status `c` yields an error whose message carries `c`; and
a successful call returning status 0 yields no error. -/
theorem C4_mutating_error_discipline (v : Volume) (e : String) (c : Int)
    (hc : c ≠ 0) (fs fsLabel lbl : String) (alloc : Int)
    (b1 b2 b3 b4 b5 b6 b7 : Bool) (newHandle : Option Nat) :
    (v.flush (.callErr e) = some ("Flush: " ++ e) ∧
     v.flush (.ok (.i32 c)) = some ("error code returned during flush: " ++ toString c) ∧
     v.flush (.ok (.i32 0)) = none) ∧
    ((v.format fs fsLabel alloc b1 b2 b3 b4 b5 b6 b7 (.callErr e)).2.2 =
        some ("Format: " ++ e) ∧
     (v.format fs fsLabel alloc b1 b2 b3 b4 b5 b6 b7 (.ok (.i32 c) newHandle)).2.2 =
        some ("error code returned during formatting: " ++ toString c) ∧
     (v.format fs fsLabel alloc b1 b2 b3 b4 b5 b6 b7 (.ok (.i32 0) newHandle)).2.2 = none) ∧
    ((v.optimize b1 b2 b3 b4 b5 (.callErr e)).2 = some ("Optimize: " ++ e) ∧
     (v.optimize b1 b2 b3 b4 b5 (.ok (.i32 c))).2 =
        some ("error code returned during optimization: " ++ toString c) ∧
     (v.optimize b1 b2 b3 b4 b5 (.ok (.i32 0))).2 = none) ∧
    ((v.setFileSystemLabel lbl (.callErr e)).2 = some ("SetFileSystemLabel: " ++ e) ∧
     (v.setFileSystemLabel lbl (.ok (.i32 c))).2 =
        some ("error code returned during setting file system label: " ++ toString c) ∧
     (v.setFileSystemLabel lbl (.ok (.i32 0))).2 = none) := by
  simp [Volume.flush, Volume.format, Volume.optimize, Volume.setFileSystemLabel,
    int32Assert, hc]

/-- Witness for C4 with status code 5. -/
theorem C4_mutating_error_discipline_witness :
    Volume.flush {} (.ok (.i32 5)) =
      some ("error code returned during flush: " ++ toString (5 : Int)) ∧
    (Volume.optimize {} true true true true true (.ok (.i32 0))).2 = none := by
  have h := C4_mutating_error_discipline {} "x" 5 (by decide) "NTFS" "lbl" "lbl" 0
    true true true true true true true none
  exact ⟨h.1.2.1, h.2.2.1.2.2⟩

/-- Claim C5: `Query()` on a `Volume` with a nil handle returns the
"invalid handle" error and touches nothing: for every property
environment the volume is returned unchanged, no warning is logged, and
the result does not depend on the environment (no property access). -/
theorem C5_query_nil_handle (v : Volume) (env : QueryEnv)
    (h : v.handle = none) :
    v.query env = (v, [], some "invalid handle") := by
  simp [Volume.query, h]

/-- Witness for C5 at the zero volume and an all-failing environment. -/
theorem C5_query_nil_handle_witness :
    Volume.query {} envFail = ({}, [], some "invalid handle") :=
  C5_query_nil_handle {} envFail rfl

/-- Claim C6: on success (status 0), `Format` returns a fresh `Volume`
whose handle is the one bound to the freshly formatted volume object (the
`formattedVolume` output dispatch), with no error; the receiver is not
modified (the result does not depend on it). -/
theorem C6_format_returns_new_handle (v : Volume) (fs fsLabel : String)
    (alloc : Int) (b1 b2 b3 b4 b5 b6 b7 : Bool) (newHandle : Option Nat) :
    v.format fs fsLabel alloc b1 b2 b3 b4 b5 b6 b7 (.ok (.i32 0) newHandle) =
      ({ handle := newHandle }, {}, none) := by
  simp [Volume.format, int32Assert]

/-- Claim C9: when the executed query matches zero volumes, `GetVolumes`
returns an empty `VolumeSet` and no error. -/
theorem C9_zero_volumes (svc : Service) (filter : String)
    (h1 : svc.wmiSvc.execQuery (volumeQuery filter) = .ok ())
    (h2 : svc.wmiSvc.countProp = .ok 0) :
    svc.getVolumes filter = (⟨[]⟩, none) := by
  simp [Service.getVolumes, h1, h2, getVolumesLoop]

/-- A concrete WMI oracle whose query matches zero volumes. -/
def wmiZero : Wmi :=
  ⟨fun _ => .ok (), .ok 0, fun _ => .error "no item", fun _ => envFail⟩

/-- Witness for C9 on the zero-count oracle. -/
theorem C9_zero_volumes_witness :
    Service.getVolumes ⟨wmiZero⟩ "" = (⟨[]⟩, none) :=
  C9_zero_volumes ⟨wmiZero⟩ "" rfl rfl

/-- Claim C10: the allocation-unit-size argument of the native `Format`
call is null when the caller passes 0 and the caller value otherwise. -/
theorem C10_format_alloc_unit_size (fs fsLabel : String)
    (allocationUnitSize : Int)
    (full force compress shortFileNameSupport setIntegrityStreams
     useLargeFRS disableHeatGathering : Bool) :
    (formatArgs fs fsLabel allocationUnitSize full force compress
        shortFileNameSupport setIntegrityStreams useLargeFRS
        disableHeatGathering).ialloc =
      if allocationUnitSize = 0 then Arg.null
      else Arg.int allocationUnitSize := by
  by_cases h : allocationUnitSize = 0 <;> simp [formatArgs, h]

/-- Claim C8: during `Query()` on a live handle, (a) when every
`GetProperty` call succeeds, a failure of `assignVariant` on any of the
numeric properties never makes `Query()` fail, and each such failure
leaves its warning in the log; (b) a failing `GetProperty` call (the first
one, in access order) makes `Query()` return its wrapped error. -/
theorem C8_query_decode_leniency (env : QueryEnv) (v : Volume) (hnd : Nat)
    (hh : v.handle = some hnd) :
    ((∀ n ∈ queryProps, ∃ p, env.getProp n = .ok p) →
      (v.query env).2.2 = none ∧
      ∀ n ∈ nonStringProps, ∀ p e, env.getProp n = .ok p →
        env.assign n p.value = .error e →
        ("assignVariant(" ++ n ++ "): " ++ e) ∈ (v.query env).2.1) ∧
    (∀ n e, firstGetPropErr env queryProps = some (n, e) →
      (v.query env).2.2 = some ("oleutil.GetProperty(" ++ n ++ "): " ++ e)) := by
  constructor
  · intro hall
    obtain ⟨p1, hp1⟩ := hall "DriveLetter" (by simp [queryProps])
    obtain ⟨p2, hp2⟩ := hall "Path" (by simp [queryProps])
    obtain ⟨p3, hp3⟩ := hall "FileSystem" (by simp [queryProps])
    obtain ⟨p4, hp4⟩ := hall "FileSystemLabel" (by simp [queryProps])
    have hall' : ∀ n ∈ nonStringProps, ∃ p, env.getProp n = .ok p :=
      fun n hn => hall n (by
        show n ∈ ["DriveLetter", "Path", "FileSystem", "FileSystemLabel"] ++ nonStringProps
        exact List.mem_append_right _ hn)
    constructor
    · simp only [Volume.query, hh, hp1, hp2, hp3, hp4]
      exact queryLoop_ok env nonStringProps hall' _ _
    · intro n hn p e hp ha
      simp only [Volume.query, hh, hp1, hp2, hp3, hp4]
      exact queryLoop_warns env nonStringProps hall' _ _ n hn p e hp ha
  · intro n e hf
    have hq : queryProps =
        "DriveLetter" :: "Path" :: "FileSystem" :: "FileSystemLabel" :: nonStringProps := rfl
    rw [hq] at hf
    simp only [Volume.query, hh]
    rw [firstGetPropErr] at hf
    cases hg1 : env.getProp "DriveLetter" with
    | error e1 =>
      rw [hg1] at hf
      simp only [Option.some.injEq, Prod.mk.injEq] at hf
      obtain ⟨hfn, hfe⟩ := hf
      subst hfn; subst hfe
      simp [hg1]
    | ok p1 =>
      rw [hg1] at hf
      simp only [hg1]
      rw [firstGetPropErr] at hf
      cases hg2 : env.getProp "Path" with
      | error e2 =>
        rw [hg2] at hf
        simp only [Option.some.injEq, Prod.mk.injEq] at hf
        obtain ⟨hfn, hfe⟩ := hf
        subst hfn; subst hfe
        simp [hg2]
      | ok p2 =>
        rw [hg2] at hf
        simp only [hg2]
        rw [firstGetPropErr] at hf
        cases hg3 : env.getProp "FileSystem" with
        | error e3 =>
          rw [hg3] at hf
          simp only [Option.some.injEq, Prod.mk.injEq] at hf
          obtain ⟨hfn, hfe⟩ := hf
          subst hfn; subst hfe
          simp [hg3]
        | ok p3 =>
          rw [hg3] at hf
          simp only [hg3]
          rw [firstGetPropErr] at hf
          cases hg4 : env.getProp "FileSystemLabel" with
          | error e4 =>
            rw [hg4] at hf
            simp only [Option.some.injEq, Prod.mk.injEq] at hf
            obtain ⟨hfn, hfe⟩ := hf
            subst hfn; subst hfe
            simp [hg4]
          | ok p4 =>
            rw [hg4] at hf
            simp only [hg4]
            exact queryLoop_first_err env nonStringProps n e hf _ _

/-- A property environment whose `GetProperty` calls all succeed and whose
decoder fails exactly on the `Size` property. -/
def envSizeBad : QueryEnv :=
  ⟨fun _ => .ok ⟨68, "d", .i32 3⟩,
   fun n _ => if n = "Size" then .error "bad variant" else .ok 3⟩

/-- Witness for C8: on `envSizeBad`, `Query()` succeeds and the `Size`
decode failure is logged. -/
theorem C8_query_decode_leniency_witness :
    (Volume.query { handle := some 7 } envSizeBad).2.2 = none ∧
    ("assignVariant(" ++ "Size" ++ "): " ++ "bad variant") ∈
      (Volume.query { handle := some 7 } envSizeBad).2.1 := by
  have h := C8_query_decode_leniency envSizeBad { handle := some 7 } 7 rfl
  have h1 := h.1 (fun n _ => ⟨⟨68, "d", .i32 3⟩, rfl⟩)
  exact ⟨h1.1, h1.2 "Size" (by simp [nonStringProps]) ⟨68, "d", .i32 3⟩
    "bad variant" rfl rfl⟩

/-- The enumeration loop, when the items at relative positions `0..k-1`
materialize and the item at position `k` fails, returns the accumulator
followed by the `k` materialized volumes, together with the failing item's
error. -/
theorem getVolumesLoop_fail (w : Wmi) (e : String) :
    ∀ k r i acc, k < r →
      (∀ j, j < k → (itemOutcome w (i + j)).isOk = true) →
      itemOutcome w (i + k) = .error e →
      getVolumesLoop w acc i r = (acc ++ okVolumes w i k, some e) := by
  intro k
  induction k with
  | zero =>
    intro r i acc hk hpre hfail
    cases r with
    | zero => exact absurd hk (by omega)
    | succ r0 =>
      rw [Nat.add_zero] at hfail
      simp [getVolumesLoop, hfail, okVolumes]
  | succ k ih =>
    intro r i acc hk hpre hfail
    cases r with
    | zero => exact absurd hk (by omega)
    | succ r0 =>
      have h0 : (itemOutcome w (i + 0)).isOk = true := hpre 0 (by omega)
      rw [Nat.add_zero] at h0
      cases hio : itemOutcome w i with
      | error e0 => rw [hio] at h0; simp [Except.isOk, Except.toBool] at h0
      | ok v0 =>
        have hpre' : ∀ j, j < k → (itemOutcome w (i + 1 + j)).isOk = true := by
          intro j hj
          have h := hpre (j + 1) (by omega)
          rwa [show i + (j + 1) = i + 1 + j by omega] at h
        have hfail' : itemOutcome w (i + 1 + k) = .error e := by
          rwa [show i + (k + 1) = i + 1 + k by omega] at hfail
        have hrec := ih r0 (i + 1) (acc ++ [v0]) (by omega) hpre' hfail'
        simp only [getVolumesLoop, hio, hrec, okVolumes]
        simp

/-- Claim C7: during enumeration, when the items at indices `0..k-1`
materialize and fetching or querying item `k` fails, `GetVolumes` returns
that error, and the returned `VolumeSet` still holds exactly the volumes
appended before the failure (so the caller can release their handles). -/
theorem C7_enumeration_keeps_appended (svc : Service) (filter : String)
    (cnt : Int) (k : Nat) (e : String)
    (h1 : svc.wmiSvc.execQuery (volumeQuery filter) = .ok ())
    (h2 : svc.wmiSvc.countProp = .ok cnt)
    (hk : k < cnt.toNat)
    (hpre : ∀ j, j < k → (itemOutcome svc.wmiSvc j).isOk = true)
    (hfail : itemOutcome svc.wmiSvc k = .error e) :
    svc.getVolumes filter = (⟨okVolumes svc.wmiSvc 0 k⟩, some e) := by
  have hpre' : ∀ j, j < k → (itemOutcome svc.wmiSvc (0 + j)).isOk = true := by
    intro j hj
    rw [Nat.zero_add]
    exact hpre j hj
  have hfail' : itemOutcome svc.wmiSvc (0 + k) = .error e := by
    rwa [Nat.zero_add]
  have hloop := getVolumesLoop_fail svc.wmiSvc e k cnt.toNat 0 [] hk hpre' hfail'
  simp [Service.getVolumes, h1, h2, hloop]

/-- A concrete WMI oracle reporting two items, where item 0 materializes
and the `ItemIndex` fetch of item 1 fails. -/
def wmiItemFail : Wmi :=
  ⟨fun _ => .ok (), .ok 2,
   fun i => if i = 0 then .ok (some 10) else .error "gone",
   fun _ => envAllOk⟩

/-- Witness for C7: on `wmiItemFail` the call fails on item 1 with the
wrapped `ItemIndex` error, and item 0 remains in the returned set. -/
theorem C7_enumeration_keeps_appended_witness :
    Service.getVolumes ⟨wmiItemFail⟩ "" =
      (⟨okVolumes wmiItemFail 0 1⟩,
       some ("oleutil.CallMethod(ItemIndex, " ++ toString 1 ++ "): " ++ "gone")) :=
  C7_enumeration_keeps_appended ⟨wmiItemFail⟩ "" 2 1
    ("oleutil.CallMethod(ItemIndex, " ++ toString 1 ++ "): " ++ "gone")
    rfl rfl (by decide)
    (fun j hj => by
      have hj0 : j = 0 := by omega
      subst hj0
      rfl)
    rfl

end Storage
